import Mathlib

/-!
# winmenu: the `Usage` record codec, name cipher and registry enumeration

A shallow embedding of `src/winmenu/Usage.hpp`.

* Machine integers are natural numbers, reduced modulo `2 ^ w` where the C++ type has width `w`.
* A `byte*` argument is `Option (List byte)`: `none` is `NULL`, `some arr` points at the first
  element of the array `arr`.  Every read `buffer[i]` is bounds-checked against the array and
  recorded in a trace, so that "which bytes were read" is part of the result.
* Undefined behaviour (a store through a null pointer, a read outside an array) is a `Fault`.
* The Windows registry API and `GetVersionEx` are parameters of the functions that call them.
-/

namespace winmenu

/-! ## Basic types (`stdint.hpp`, `<windows.h>`) -/

/-- Byte type of `stdint.hpp`: `typedef uint8_t byte`. -/
abbrev byte := Fin 256

/-- The union `byte32set` of `stdint.hpp`: `uint8_t bytes[4]` overlaid with `uint32_t code`. -/
structure byte32set where
  bytes0 : byte
  bytes1 : byte
  bytes2 : byte
  bytes3 : byte
deriving DecidableEq, Repr

/-- Member `code` of `byte32set` read after the four `bytes` were written: the object
representation of a `uint32_t` on the little-endian hosts that Windows runs on. -/
def byte32set.code (set : byte32set) : Nat :=
  set.bytes0.val + 256 * set.bytes1.val + 65536 * set.bytes2.val + 16777216 * set.bytes3.val

/-- The two `DWORD` fields of `OSVERSIONINFO` that `platform` reads after `GetVersionEx`
filled it. -/
structure OSVERSIONINFO where
  dwMajorVersion : Nat
  dwMinorVersion : Nat
deriving DecidableEq, Repr

/-- Modelled from the spec: `time_t` is declared by `<time.h>`, which is not part of the
repository; the spec gives `last_run` as a 64-bit tick count, so a `time_t` object is taken to be
64 bits wide and its value is identified with its 64-bit pattern. -/
def time_t_bits : Nat := 64

/-- Undefined behaviour reached by a run. -/
inductive Fault where
  | null_pointer
  | out_of_bounds
  | wild_pointer
deriving DecidableEq, Repr

/-- Indices of the input buffer that a run has read, oldest first. -/
abbrev Trace := List Nat

/-- One read `buffer[i]` of the array `arr`, recorded in the trace. -/
def fetch (arr : List byte) (i : Nat) : StateT Trace (Except Fault) byte :=
  fun tr =>
    match arr[i]? with
    | some b => Except.ok (b, tr ++ [i])
    | none => Except.error Fault.out_of_bounds

/-- The loop `for (size_t i = 0; i < 4; ++i) set.bytes[i] = buffer[i];` with `buffer`
pointing at element `p` of `arr`. -/
def fill32 (arr : List byte) (p : Nat) : StateT Trace (Except Fault) byte32set := do
  let b0 ← fetch arr (p + 0)
  let b1 ← fetch arr (p + 1)
  let b2 ← fetch arr (p + 2)
  let b3 ← fetch arr (p + 3)
  return { bytes0 := b0, bytes1 := b1, bytes2 := b2, bytes3 := b3 }

namespace Usage

/-! ## Static functions of `Usage` -/

/-- `Usage::platform`, given the structure that `GetVersionEx` filled. -/
def platform (osinfo : OSVERSIONINFO) : Nat :=
  let major := osinfo.dwMajorVersion % 2 ^ 16
  let minor := osinfo.dwMinorVersion % 2 ^ 16
  let version := major % 2 ^ 32
  let version := (version <<< (2 * 8)) % 2 ^ 32
  let version := version ||| (minor % 2 ^ 32)
  version

/-- `Usage::platform_major`. -/
def platform_major (osinfo : OSVERSIONINFO) : Nat :=
  let version := platform osinfo
  (version >>> 16) % 2 ^ 16

/-- `Usage::platform_minor`. -/
def platform_minor (osinfo : OSVERSIONINFO) : Nat :=
  let version := platform osinfo
  version % 2 ^ 16

/-- The test `windows7 = ((major >= 6) && (minor >= 1))` that `import_data`, `export_data` and
`update` each compute. -/
def windows7 (osinfo : OSVERSIONINFO) : Bool :=
  let major := platform_major osinfo
  let minor := platform_minor osinfo
  decide (major ≥ 6) && decide (minor ≥ 1)

/-- The assignment `offset = (windows7 ? 60 : 8)` of `import_data` and `export_data`. -/
def offset (osinfo : OSVERSIONINFO) : Nat :=
  if windows7 osinfo then 60 else 8

/-- `Usage::ROT13` on a `wchar_t` code unit (16 bits on Windows). -/
def ROT13 (code : Nat) : Nat :=
  if code ≥ 'a'.toNat ∧ code ≤ 'm'.toNat then (code + 13) % 2 ^ 16
  else if code ≥ 'n'.toNat ∧ code ≤ 'z'.toNat then (code - 13) % 2 ^ 16
  else if code ≥ 'A'.toNat ∧ code ≤ 'M'.toNat then (code + 13) % 2 ^ 16
  else if code ≥ 'N'.toNat ∧ code ≤ 'Z'.toNat then (code - 13) % 2 ^ 16
  else code

/-- The name loop of `update`: `for (i < valuelen) self_name[index][i] = ROT13(value[i]);`. -/
def rot13_name (value : List Nat) : List Nat :=
  value.map ROT13

/-- `Usage::import_data`: the final values of the out-parameters `(counter, time)`. -/
def import_data (osinfo : OSVERSIONINFO) (buffer : Option (List byte)) (size : Nat) :
    StateT Trace (Except Fault) (Nat × Nat) := do
  let counter := 0
  let time := 0
  match buffer with
  | none => return (counter, time)
  | some arr =>
    if size = 0 then
      return (counter, time)
    let offset := offset osinfo
    if size < offset + 8 then
      return (counter, time)
    -- buffer += 4
    let set ← fill32 arr 4
    let counter := set.code % 2 ^ 32
    -- buffer -= 4; buffer += offset
    let set ← fill32 arr offset
    let hpart := set.code % 2 ^ 32
    -- buffer += 4
    let set ← fill32 arr (offset + 4)
    let lpart := set.code % 2 ^ 32
    let time := (((hpart <<< 32) % 2 ^ 64) ||| lpart) % 2 ^ time_t_bits
    return (counter, time)

end Usage

/-! ## `export_data`: pointers -/

/-- A value of type `byte*` inside `export_data`. -/
inductive BytePtr where
  /-- An address made from an integer; `NULL` is `addr 0`. No object lives there. -/
  | addr (a : Nat)
  /-- Element `off` of the array made by `new byte[size]`. -/
  | fresh (off : Nat)
deriving DecidableEq, Repr

/-- A value of type `byte**`: `NULL`, or the address of the caller's `byte*` variable. -/
inductive SlotPtr where
  | null
  | caller
deriving DecidableEq, Repr

/-- What the caller of `export_data` can observe after it returned. -/
structure Exported where
  /-- Final value of the reference parameter `size`. -/
  size : Nat
  /-- Final value of the caller's `byte*` variable. -/
  slot : BytePtr
  /-- Contents of the array allocated by the call, if one was allocated. -/
  fresh : Option (List byte)
deriving DecidableEq, Repr

/-- The store `*buffer = v` through a `byte**`. -/
def store_slot (buffer : SlotPtr) (v : BytePtr) : Except Fault BytePtr :=
  match buffer with
  | SlotPtr.null => Except.error Fault.null_pointer
  | SlotPtr.caller => Except.ok v

/-- The call `::memset(buffer, 0, size)` on the `byte**` itself: `size` is 16 or 68 bytes,
more than the one pointer variable that `buffer` can address. -/
def memset_slot (buffer : SlotPtr) (_size : Nat) : Except Fault Unit :=
  match buffer with
  | SlotPtr.null => Except.error Fault.null_pointer
  | SlotPtr.caller => Except.error Fault.out_of_bounds

/-- The read `p[i]` through a `const byte*`. -/
def load_byte (p : BytePtr) (i : Nat) (fresh : List byte) : Except Fault byte :=
  match p with
  | BytePtr.addr 0 => Except.error Fault.null_pointer
  | BytePtr.addr _ => Except.error Fault.wild_pointer
  | BytePtr.fresh off =>
    match fresh[off + i]? with
    | some b => Except.ok b
    | none => Except.error Fault.out_of_bounds

/-- The store `p[i] = b` through a `byte*`. -/
def store_byte (p : BytePtr) (i : Nat) (b : byte) (fresh : List byte) :
    Except Fault (List byte) :=
  match p with
  | BytePtr.addr 0 => Except.error Fault.null_pointer
  | BytePtr.addr _ => Except.error Fault.wild_pointer
  | BytePtr.fresh off =>
    if off + i < fresh.length then Except.ok (fresh.set (off + i) b)
    else Except.error Fault.out_of_bounds

/-- Pointer arithmetic `p += n` on a `byte*`. -/
def BytePtr.add (p : BytePtr) (n : Nat) : BytePtr :=
  match p with
  | BytePtr.addr a => BytePtr.addr (a + n)
  | BytePtr.fresh off => BytePtr.fresh (off + n)

/-- Pointer arithmetic `p -= n` on a `byte*`. -/
def BytePtr.sub (p : BytePtr) (n : Nat) : BytePtr :=
  match p with
  | BytePtr.addr a => BytePtr.addr (a - n)
  | BytePtr.fresh off => BytePtr.fresh (off - n)

/-- The loops `for (size_t i = 0; i < n; ++i) iter[i] = byteptr[i];` of `export_data`,
run from index `i` for `n` more rounds. -/
def copy_bytes (iter byteptr : BytePtr) : Nat → Nat → List byte → Except Fault (List byte)
  | 0, _, fresh => Except.ok fresh
  | n + 1, i, fresh => do
    let b ← load_byte byteptr i fresh
    let fresh ← store_byte iter i b fresh
    copy_bytes iter byteptr n (i + 1) fresh

namespace Usage

set_option linter.unusedVariables false in
/-- `Usage::export_data`.  `buffer` is the `byte**` argument and `slot` the value that the
caller's `byte*` variable holds on entry. -/
def export_data (osinfo : OSVERSIONINFO) (counter time : Nat) (buffer : SlotPtr)
    (slot : BytePtr) : Except Fault Exported := do
  -- buffer = NULL: the parameter itself is overwritten, the caller's variable is not
  let buffer := SlotPtr.null
  let size := 0
  if counter = 0 ∨ time = 0 then
    return { size := size, slot := slot, fresh := none }
  let offset := offset osinfo
  let iter := BytePtr.addr 0
  let size := offset + 8
  -- *buffer = new byte[size]
  let slot ← store_slot buffer (BytePtr.fresh 0)
  let fresh := List.replicate size (0 : byte)
  memset_slot buffer size
  -- byteptr = reinterpret_cast<const byte*>(counter)
  let byteptr := BytePtr.addr counter
  let iter := iter.add 4
  let fresh ← copy_bytes iter byteptr 4 0 fresh
  -- byteptr = reinterpret_cast<const byte*>(time)
  let byteptr := BytePtr.addr time
  let iter := iter.sub 4
  let iter := iter.add offset
  let fresh ← copy_bytes iter byteptr 8 0 fresh
  return { size := size, slot := slot, fresh := some fresh }

end Usage

/-! ## The registry, as `update` uses it -/

/-- Status `ERROR_SUCCESS` of `<winerror.h>`. -/
def ERROR_SUCCESS : Nat := 0

/-- Status `ERROR_MORE_DATA` of `<winerror.h>`. -/
def ERROR_MORE_DATA : Nat := 234

/-- What one call of `RegEnumValueW` leaves behind: its status, the two in/out lengths and the
contents of the two buffers. -/
structure EnumAnswer where
  state : Nat
  valuelen : Nat
  datalen : Nat
  value : List Nat
  data : List byte
deriving DecidableEq, Repr

/-- The three registry calls of `update`.  A handle is `none` while the `HKEY` variable has
not been written (it is declared without initialiser), `some h` once `RegOpenKeyExW` stored
`h` in it. -/
structure Registry where
  /-- Arguments: the key path. Result: `(state, handle variable after the call)`. -/
  RegOpenKeyExW : String → Nat × Option Nat
  /-- Arguments: the handle. Result: `(state, values)`. -/
  RegQueryInfoKey : Option Nat → Nat × Nat
  /-- Arguments: handle, index, `valuelen` and `datalen` on entry. -/
  RegEnumValueW : Option Nat → Nat → Nat → Nat → EnumAnswer

/-- The private members of `Usage`. An array element is `none` until it is assigned. -/
structure Usage where
  self_count : Nat
  self_name : List (Option (List Nat))
  self_buffer : List (Option (List byte))
  self_buffersize : List (Option Nat)
deriving DecidableEq, Repr

/-- How a call of `update` ended: the members at that moment, and the code of the `WinError`
it threw, if it threw. -/
structure Outcome where
  self : Usage
  thrown : Option Nat
deriving DecidableEq, Repr

/-- Locals of the retrieval loop when it is left, with the number of `RegEnumValueW` calls
it made. -/
structure Retrieved where
  state : Nat
  valuelen : Nat
  datalen : Nat
  value : List Nat
  data : List byte
  calls : Nat
deriving DecidableEq, Repr

namespace Usage

/-- The loop `while (state == ERROR_MORE_DATA) { ... }` of `update`, entered with the given
`datalen` and `valuelen` after `calls` earlier rounds.  `none`: still looping after `fuel`
rounds. The bookkeeping of `maxdata` does not influence any other variable and is left out. -/
def enum_retry (reg : Registry) (handle : Option Nat) (index : Nat) :
    Nat → Nat → Nat → Nat → Option Retrieved
  | 0, _, _, _ => none
  | fuel + 1, datalen, valuelen, calls =>
    let ans := reg.RegEnumValueW handle index valuelen datalen
    let state := ans.state
    let valuelen := ans.valuelen
    let datalen := ans.datalen
    if state = ERROR_SUCCESS then
      some { state := state, valuelen := valuelen, datalen := datalen,
             value := ans.value, data := ans.data, calls := calls + 1 }
    else
      let datalen := (datalen + 1) % 2 ^ 32
      let valuelen := (valuelen + 1) % 2 ^ 32
      if state = ERROR_MORE_DATA then
        enum_retry reg handle index fuel datalen valuelen (calls + 1)
      else
        some { state := state, valuelen := valuelen, datalen := datalen,
               value := [], data := [], calls := calls + 1 }

/-- The loop `for (DWORD index = 0; index < self_count; ++index)` of `update`, with
`remaining = self_count - index` rounds to go. -/
def enum_values (reg : Registry) (handle : Option Nat) (fuel : Nat) :
    Nat → Nat → Usage → Option Outcome
  | 0, _, self => some { self := self, thrown := none }
  | remaining + 1, index, self =>
    match enum_retry reg handle index fuel 128 64 0 with
    | none => none
    | some r =>
      if r.state ≠ ERROR_SUCCESS then
        some { self := self, thrown := some r.state }
      else
        let name := rot13_name (r.value.take r.valuelen)
        let self := { self with
          self_name := self.self_name.set index (some name)
          self_buffer := self.self_buffer.set index (some (r.data.take r.datalen))
          self_buffersize := self.self_buffersize.set index (some r.datalen) }
        enum_values reg handle fuel remaining (index + 1) self

/-- The loop `while (iter < tail)` of `update` over the registry paths. -/
def update_paths (reg : Registry) (fuel : Nat) : List String → Usage → Option Outcome
  | [], self => some { self := self, thrown := none }
  | key :: rest, self =>
    -- the state returned by RegOpenKeyExW is overwritten before it is read
    let handle := (reg.RegOpenKeyExW key).2
    let state := (reg.RegQueryInfoKey handle).1
    let values := (reg.RegQueryInfoKey handle).2
    if state ≠ ERROR_SUCCESS then
      some { self := self, thrown := some state }
    else
      let self : Usage :=
        { self_count := values
          self_name := List.replicate values none
          self_buffer := List.replicate values none
          self_buffersize := List.replicate values none }
      match enum_values reg handle fuel self.self_count 0 self with
      | none => none
      | some out =>
        match out.thrown with
        | some _ => some out
        | none => update_paths reg fuel rest out.self

/-- The table `keys` of `update`; `none` is the `NULL` entry. -/
def keys (osinfo : OSVERSIONINFO) : List (Option String) :=
  if !windows7 osinfo then
    [some "\x7b0D6D4F41-2994-4BA0-8FEF-620E43CD2812\x7d",
     some "\x7b5E6AB780-7743-11CF-A12B-00AA004AE837\x7d",
     some "\x7b75048700-EF1F-11D0-9888-006097DEACF9\x7d"]
  else
    [some "\x7bCEBFF5CD-ACE2-4F4F-9178-9926F41749EA\x7d",
     some "\x7bF4E57C4B-2036-45F0-A9AB-443BCFE33D9F\x7d",
     none]

/-- The vector `paths` of `update`: the loop stops at the first `NULL` key. -/
def paths (osinfo : OSVERSIONINFO) : List String :=
  let headstr := "Software\\Microsoft\\Windows\\CurrentVersion\\Explorer\\UserAssist\\"
  let tailstr := "\\Count\\"
  ((keys osinfo).takeWhile Option.isSome).filterMap
    (fun k => k.map (fun key => headstr ++ key ++ tailstr))

/-- `Usage::update`.  After `delete[]` the three arrays hold no element. `none`: a retrieval
loop was still running after `fuel` rounds. -/
def update (osinfo : OSVERSIONINFO) (reg : Registry) (fuel : Nat) (_self : Usage) :
    Option Outcome :=
  let self : Usage :=
    { self_count := 0, self_name := [], self_buffer := [], self_buffersize := [] }
  update_paths reg fuel (paths osinfo) self

/-- `Usage::size`. -/
def size (self : Usage) : Nat :=
  self.self_count

/-- `Usage::name`; `none` where the C++ read is outside the array or of an unassigned element. -/
def name (self : Usage) (index : Nat) : Option (List Nat) :=
  (self.self_name[index]?).join

/-- `Usage::buffer`. -/
def buffer (self : Usage) (index : Nat) : Option (List byte) :=
  (self.self_buffer[index]?).join

/-- `Usage::buffersize`. -/
def buffersize (self : Usage) (index : Nat) : Option Nat :=
  (self.self_buffersize[index]?).join

end Usage

/-! ## Decoding accessors of `Usage` -/

/-- The two `DWORD` fields of `FILETIME` (`<windows.h>`). -/
structure FILETIME where
  dwLowDateTime : Nat
  dwHighDateTime : Nat
deriving DecidableEq, Repr

/-- The value of an `int32_t` initialised from a `uint32_t`: the two's-complement reading of
the same 32 bits. -/
def to_int32 (n : Nat) : Int :=
  if n % 2 ^ 32 < 2 ^ 31 then ((n % 2 ^ 32 : Nat) : Int) else ((n % 2 ^ 32 : Nat) : Int) - 2 ^ 32

/-- The signed value of a `time_t` object with the given 64-bit pattern. -/
def to_time_t (t : Nat) : Int :=
  if t % 2 ^ 64 < 2 ^ 63 then ((t % 2 ^ 64 : Nat) : Int) else ((t % 2 ^ 64 : Nat) : Int) - 2 ^ 64

/-- The conversion `static_cast<DWORD>(z)` of a signed integer: its low 32 bits. -/
def to_DWORD (z : Int) : Nat :=
  (z % 2 ^ 32).toNat

/-- The read `array[index]` of one of the member arrays: a fault outside the array and for
an element that was never assigned. -/
def member_at {α : Type} (array : List (Option α)) (index : Nat) : Except Fault α :=
  match array[index]? with
  | some (some a) => Except.ok a
  | some none => Except.error Fault.wild_pointer
  | none => Except.error Fault.out_of_bounds

namespace Usage

/-- `Usage::counter`: the `uint32_t` that `import_data` decoded, returned as `int32_t`. -/
def counter (osinfo : OSVERSIONINFO) (self : Usage) (index : Nat) : Except Fault Int := do
  let buffer ← member_at self.self_buffer index
  let size ← member_at self.self_buffersize index
  let decoded ← import_data osinfo (some buffer) size []
  let counter := decoded.1.1
  return to_int32 counter

/-- `Usage::time`: the returned `time_t` (as its 64-bit pattern) and the `FILETIME` written
through the reference parameter.  `time >> 16` shifts the signed `time_t`. -/
def time (osinfo : OSVERSIONINFO) (self : Usage) (index : Nat) :
    Except Fault (Nat × FILETIME) := do
  let buffer ← member_at self.self_buffer index
  let size ← member_at self.self_buffersize index
  let decoded ← import_data osinfo (some buffer) size []
  let time := decoded.1.2
  let filetime : FILETIME :=
    { dwLowDateTime := to_DWORD (to_time_t time >>> (16 : Nat))
      dwHighDateTime := to_DWORD (to_time_t time) }
  return (time, filetime)

end Usage

/-! ## Registries and objects used as inputs -/

/-- A 68-byte record: bytes `[4, 8)` are `05 00 00 00`, bytes `[60, 64)` hold `0x01D6C2A1`
and bytes `[64, 68)` hold `0x2B3C4D5E`, each little-endian. -/
def modern_record : List byte :=
  [0, 0, 0, 0, 0x05, 0x00, 0x00, 0x00] ++ List.replicate 52 0 ++
    [0xA1, 0xC2, 0xD6, 0x01, 0x5E, 0x4D, 0x3C, 0x2B]

/-- An object holding `modern_record` as its only entry. -/
def usage_modern_record : Usage :=
  { self_count := 1
    self_name := [some ['A'.toNat]]
    self_buffer := [some modern_record]
    self_buffersize := [some 68] }

/-- A 16-byte record whose bytes `[4, 8)` are `00 00 00 80`, the little-endian form of
`2 ^ 31`. -/
def large_counter_record : List byte :=
  [0, 0, 0, 0, 0x00, 0x00, 0x00, 0x80, 0, 0, 0, 0, 0, 0, 0, 0]

/-- An object holding `large_counter_record` as its only entry. -/
def usage_large_counter : Usage :=
  { self_count := 1
    self_name := [some ['A'.toNat]]
    self_buffer := [some large_counter_record]
    self_buffersize := [some 16] }


/-- Status `ERROR_FILE_NOT_FOUND` of `<winerror.h>`. -/
def ERROR_FILE_NOT_FOUND : Nat := 2

/-- Status `ERROR_INVALID_HANDLE` of `<winerror.h>`. -/
def ERROR_INVALID_HANDLE : Nat := 6

/-- Status `ERROR_NO_MORE_ITEMS` of `<winerror.h>`. -/
def ERROR_NO_MORE_ITEMS : Nat := 259

/-- One registry value: its stored (obfuscated) name without terminator, and its data. -/
structure StoredValue where
  name : List Nat
  data : List byte
deriving DecidableEq, Repr

/-- A registry holding the listed keys, each with its values in enumeration order.  Opening a
key that is not listed fails with `ERROR_FILE_NOT_FOUND` and leaves the handle unwritten; a
query on an unwritten handle fails with `ERROR_INVALID_HANDLE`; a value is handed out once the
name buffer has room for the name and its terminator and the data buffer for the data. -/
def table_registry (locations : List (String × List StoredValue)) : Registry where
  RegOpenKeyExW := fun key =>
    match locations.findIdx? (fun l => l.1 == key) with
    | some h => (ERROR_SUCCESS, some h)
    | none => (ERROR_FILE_NOT_FOUND, none)
  RegQueryInfoKey := fun handle =>
    match handle.bind (fun h => locations[h]?) with
    | some l => (ERROR_SUCCESS, l.2.length)
    | none => (ERROR_INVALID_HANDLE, 0)
  RegEnumValueW := fun handle index valuelen datalen =>
    match (handle.bind (fun h => locations[h]?)).bind (fun l => l.2[index]?) with
    | some r =>
      if r.name.length < valuelen ∧ r.data.length ≤ datalen then
        { state := ERROR_SUCCESS, valuelen := r.name.length, datalen := r.data.length,
          value := r.name ++ [0], data := r.data }
      else
        { state := ERROR_MORE_DATA, valuelen := valuelen, datalen := datalen,
          value := [], data := [] }
    | none =>
      { state := ERROR_NO_MORE_ITEMS, valuelen := valuelen, datalen := datalen,
        value := [], data := [] }

/-- Both Modern keys exist; the first holds the value `N` (data `01 02`), the second the value
`O` (data `03`). -/
def registry_two_keys : Registry :=
  table_registry ((Usage.paths ⟨6, 1⟩).zip
    [[{ name := ['N'.toNat], data := [1, 2] }], [{ name := ['O'.toNat], data := [3] }]])

/-- Only the first Modern key exists, holding the value `N` (data `01 02`). -/
def registry_second_key_missing : Registry :=
  table_registry ((Usage.paths ⟨6, 1⟩).zip [[{ name := ['N'.toNat], data := [1, 2] }]])

/-- A registry that answers like `threshold_registry Td Tv` but, as `RegEnumValueW` is
documented to do, stores the required data size `Td` in `datalen` when it answers
`ERROR_MORE_DATA` on a data buffer below `Td`; the name length is left as it was. -/
def write_back_registry (Td Tv : Nat) : Registry where
  RegOpenKeyExW := fun _ => (ERROR_SUCCESS, some 0)
  RegQueryInfoKey := fun _ => (ERROR_SUCCESS, 1)
  RegEnumValueW := fun _ _ valuelen datalen =>
    if Td ≤ datalen ∧ Tv ≤ valuelen then
      { state := ERROR_SUCCESS, valuelen := valuelen, datalen := datalen, value := [], data := [] }
    else
      { state := ERROR_MORE_DATA, valuelen := valuelen,
        datalen := if datalen < Td then Td else datalen, value := [], data := [] }

/-- An object as the constructor leaves it before its call of `update`. -/
def Usage.fresh : Usage :=
  { self_count := 0, self_name := [], self_buffer := [], self_buffersize := [] }

/-! ## Specification-side vocabulary -/

/-- The stores of the grow-and-retry property by their status alone, for one handle and index:
`RegEnumValueW` answers `ERROR_MORE_DATA` while the data buffer is below `Td` or the name buffer
below `Tv`, and `ERROR_SUCCESS` once both have reached them.  Nothing is said about the lengths
it writes back. -/
def answers_by_threshold (reg : Registry) (handle : Option Nat) (index Td Tv : Nat) : Prop :=
  (∀ valuelen datalen, datalen < Td ∨ valuelen < Tv →
    (reg.RegEnumValueW handle index valuelen datalen).state = ERROR_MORE_DATA) ∧
  (∀ valuelen datalen, Td ≤ datalen → Tv ≤ valuelen →
    (reg.RegEnumValueW handle index valuelen datalen).state = ERROR_SUCCESS)

/-- A store that answers by the thresholds `Td` and `Tv` and, when it answers
`ERROR_MORE_DATA`, writes back lengths that stay between the length it was given and the
threshold from below (`min given threshold ≤ written`) and do not exceed the larger of the
given length and a bound (`written ≤ max given Gd`, `written ≤ max given Gv`).  Leaving the
lengths unchanged is the case `Gd = Gv = 0`; storing the required size is `Gd = Td`, `Gv = Tv`. -/
def write_back_store (reg : Registry) (handle : Option Nat) (index Td Tv Gd Gv : Nat) : Prop :=
  (∀ valuelen datalen, datalen < Td ∨ valuelen < Tv →
    (reg.RegEnumValueW handle index valuelen datalen).state = ERROR_MORE_DATA ∧
    min datalen Td ≤ (reg.RegEnumValueW handle index valuelen datalen).datalen ∧
    (reg.RegEnumValueW handle index valuelen datalen).datalen ≤ max datalen Gd ∧
    min valuelen Tv ≤ (reg.RegEnumValueW handle index valuelen datalen).valuelen ∧
    (reg.RegEnumValueW handle index valuelen datalen).valuelen ≤ max valuelen Gv) ∧
  (∀ valuelen datalen, Td ≤ datalen → Tv ≤ valuelen →
    (reg.RegEnumValueW handle index valuelen datalen).state = ERROR_SUCCESS)

/-- An upper bound for a buffer size that the loop offers after `k` retries.  The size starts
at `start` and grows by one per retry; a store that raises lengths up to `G` can bring it to
`G + 1`, after which it grows again by one per retry, but only in retries where this buffer is
still below its threshold `T` (at most `T - G - 1` of them) or the other buffer is still below
its own (at most `other` of them).  For `G = 0` this is `start + k`. -/
def reach_bound (start G T other k : Nat) : Nat :=
  max (start + k) (G + 1 + min k (max other (T - G - 1)))

/-- The little-endian unsigned 32-bit integer held by bytes `[p, p + 4)` of `arr`. -/
def le32_at (arr : List byte) (p : Nat) : Nat :=
  (arr.getD p 0).val + 256 * (arr.getD (p + 1) 0).val + 65536 * (arr.getD (p + 2) 0).val
    + 16777216 * (arr.getD (p + 3) 0).val

/-! ## Lemmas -/

theorem fetch_ok (arr : List byte) (i : Nat) (tr : Trace) (h : i < arr.length) :
    fetch arr i tr = Except.ok (arr.getD i 0, tr ++ [i]) := by
  simp [fetch, List.getElem?_eq_getElem h, List.getD_eq_getElem?_getD]

theorem fill32_ok (arr : List byte) (p : Nat) (tr : Trace) (h : p + 3 < arr.length) :
    ∃ set : byte32set, set.code = le32_at arr p ∧
      fill32 arr p tr = Except.ok (set, tr ++ [p, p + 1, p + 2, p + 3]) := by
  refine ⟨⟨arr.getD p 0, arr.getD (p + 1) 0, arr.getD (p + 2) 0, arr.getD (p + 3) 0⟩, rfl, ?_⟩
  have h0 : p + 0 < arr.length := by omega
  have h1 : p + 1 < arr.length := by omega
  have h2 : p + 2 < arr.length := by omega
  simp only [fill32, bind, StateT.bind, Except.bind, fetch_ok arr _ _ h0, fetch_ok arr _ _ h1,
    fetch_ok arr _ _ h2, fetch_ok arr _ _ h]
  simp [pure, StateT.pure, Except.pure]

theorem le32_at_lt (arr : List byte) (p : Nat) : le32_at arr p < 2 ^ 32 := by
  unfold le32_at
  have h0 := (arr.getD p 0).isLt
  have h1 := (arr.getD (p + 1) 0).isLt
  have h2 := (arr.getD (p + 2) 0).isLt
  have h3 := (arr.getD (p + 3) 0).isLt
  omega

theorem offset_cases (osinfo : OSVERSIONINFO) :
    Usage.offset osinfo = 8 ∨ Usage.offset osinfo = 60 := by
  unfold Usage.offset
  split <;> simp

theorem time_pattern (h l : Nat) (hh : h < 2 ^ 32) (hl : l < 2 ^ 32) :
    (((h % 2 ^ 32) <<< 32) % 2 ^ 64 ||| (l % 2 ^ 32)) % 2 ^ time_t_bits = (h <<< 32) ||| l := by
  have h1 : h <<< 32 < 2 ^ 64 := by
    rw [Nat.shiftLeft_eq]; omega
  have h2 : l < 2 ^ 64 := by omega
  rw [Nat.mod_eq_of_lt hh, Nat.mod_eq_of_lt hl, Nat.mod_eq_of_lt h1]
  exact Nat.mod_eq_of_lt (Nat.or_lt_two_pow h1 h2)

theorem import_data_ok (osinfo : OSVERSIONINFO) (arr : List byte) (size : Nat)
    (hs : size ≤ arr.length) (ho : Usage.offset osinfo + 8 ≤ size) :
    Usage.import_data osinfo (some arr) size [] =
      Except.ok ((le32_at arr 4,
          (le32_at arr (Usage.offset osinfo) <<< 32) ||| le32_at arr (Usage.offset osinfo + 4)),
        [4, 5, 6, 7, Usage.offset osinfo, Usage.offset osinfo + 1, Usage.offset osinfo + 2,
          Usage.offset osinfo + 3, Usage.offset osinfo + 4, Usage.offset osinfo + 5,
          Usage.offset osinfo + 6, Usage.offset osinfo + 7]) := by
  have hoff := offset_cases osinfo
  obtain ⟨s1, hc1, hf1⟩ := fill32_ok arr 4 [] (by omega)
  obtain ⟨s2, hc2, hf2⟩ := fill32_ok arr (Usage.offset osinfo) ([] ++ [4, 4 + 1, 4 + 2, 4 + 3])
    (by omega)
  obtain ⟨s3, hc3, hf3⟩ := fill32_ok arr (Usage.offset osinfo + 4)
    (([] ++ [4, 4 + 1, 4 + 2, 4 + 3]) ++ [Usage.offset osinfo, Usage.offset osinfo + 1,
      Usage.offset osinfo + 2, Usage.offset osinfo + 3]) (by omega)
  have hz : ¬ size = 0 := by omega
  have hlt : ¬ size < Usage.offset osinfo + 8 := by omega
  simp only [Usage.import_data, hz, hlt, if_false, bind, StateT.bind, Except.bind, hf1, hf2, hf3,
    pure, StateT.pure, Except.pure, hc1, hc2, hc3]
  rw [time_pattern _ _ (le32_at_lt _ _) (le32_at_lt _ _), Nat.mod_eq_of_lt (le32_at_lt _ _)]
  simp [Nat.add_assoc]

theorem getD_of_slice (arr : List byte) (p n k : Nat) (hk : k < n) :
    arr.getD (p + k) 0 = ((arr.drop p).take n).getD k 0 := by
  simp [List.getD_eq_getElem?_getD, List.getElem?_take, List.getElem?_drop, hk]

theorem le32_at_of_take (arr : List byte) (p : Nat) (a b c d : byte)
    (h : (arr.drop p).take 4 = [a, b, c, d]) :
    le32_at arr p = a.val + 256 * b.val + 65536 * c.val + 16777216 * d.val := by
  have h0 := getD_of_slice arr p 4 0 (by omega)
  have h1 := getD_of_slice arr p 4 1 (by omega)
  have h2 := getD_of_slice arr p 4 2 (by omega)
  have h3 := getD_of_slice arr p 4 3 (by omega)
  rw [h] at h0 h1 h2 h3
  simp only [Nat.add_zero] at h0
  unfold le32_at
  rw [h0, h1, h2, h3]
  rfl

theorem le32_pair_of_take (arr : List byte) (p : Nat) (a b c d e f g h : byte)
    (hs : (arr.drop p).take 8 = [a, b, c, d, e, f, g, h]) :
    le32_at arr p = a.val + 256 * b.val + 65536 * c.val + 16777216 * d.val ∧
    le32_at arr (p + 4) = e.val + 256 * f.val + 65536 * g.val + 16777216 * h.val := by
  have h0 := getD_of_slice arr p 8 0 (by omega)
  have h1 := getD_of_slice arr p 8 1 (by omega)
  have h2 := getD_of_slice arr p 8 2 (by omega)
  have h3 := getD_of_slice arr p 8 3 (by omega)
  have h4 := getD_of_slice arr p 8 4 (by omega)
  have h5 := getD_of_slice arr p 8 5 (by omega)
  have h6 := getD_of_slice arr p 8 6 (by omega)
  have h7 := getD_of_slice arr p 8 7 (by omega)
  rw [hs] at h0 h1 h2 h3 h4 h5 h6 h7
  simp only [Nat.add_zero] at h0
  constructor
  · unfold le32_at
    rw [h0, h1, h2, h3]
    rfl
  · unfold le32_at
    simp only [Nat.add_assoc, Nat.reduceAdd]
    rw [h4, h5, h6, h7]
    rfl

/-- C1: for either layout (timestamp offset 8 for Legacy, 60 for Modern) and every non-null
buffer of at least `offset + 8` bytes, `import_data` succeeds, reads only indices below `size`,
and returns the little-endian 32-bit integer at bytes `[4, 8)` as counter and
`(high << 32) | low` as time, `high` and `low` being the little-endian 32-bit integers at
`[offset, offset + 4)` and `[offset + 4, offset + 8)`.  In particular a 68-byte Modern buffer
with bytes `[4, 8)` = `05 00 00 00`, high `0x01D6C2A1` and low `0x2B3C4D5E` decodes to counter 5
and time `(0x01D6C2A1 << 32) | 0x2B3C4D5E`. -/
theorem C1_import_data_decodes (osinfo : OSVERSIONINFO) (arr : List byte) (size : Nat)
    (hs : size ≤ arr.length) (ho : Usage.offset osinfo + 8 ≤ size) :
    Usage.offset osinfo = (if Usage.windows7 osinfo then 60 else 8) ∧
    (∃ reads : Trace,
      Usage.import_data osinfo (some arr) size [] =
        Except.ok ((le32_at arr 4,
          (le32_at arr (Usage.offset osinfo) <<< 32) ||| le32_at arr (Usage.offset osinfo + 4)),
          reads) ∧
      ∀ i ∈ reads, i < size) ∧
    (Usage.windows7 osinfo = true → size = 68 →
      (arr.drop 4).take 4 = [0x05, 0x00, 0x00, 0x00] →
      (arr.drop 60).take 8 = [0xA1, 0xC2, 0xD6, 0x01, 0x5E, 0x4D, 0x3C, 0x2B] →
      ∃ reads : Trace,
        Usage.import_data osinfo (some arr) size [] =
          Except.ok ((5, (0x01D6C2A1 <<< 32) ||| 0x2B3C4D5E), reads)) := by
  refine ⟨rfl, ⟨_, import_data_ok osinfo arr size hs ho, ?_⟩, ?_⟩
  · intro i hi
    simp only [List.mem_cons, List.mem_singleton, List.not_mem_nil, or_false] at hi
    omega
  · intro hw _ h4 h60
    have e := import_data_ok osinfo arr size hs ho
    have hoff : Usage.offset osinfo = 60 := by simp [Usage.offset, hw]
    have hc := le32_at_of_take arr 4 _ _ _ _ h4
    have hp := le32_pair_of_take arr 60 _ _ _ _ _ _ _ _ h60
    rw [hoff, hc, hp.1, hp.2] at e
    exact ⟨_, e⟩

/-- Witness of C1 on a 68-byte buffer under Windows 6.1. -/
theorem C1_import_data_decodes_witness :
    ∃ reads : Trace,
      Usage.import_data ⟨6, 1⟩
        (some ([0, 0, 0, 0, 0x05, 0x00, 0x00, 0x00] ++ List.replicate 52 0 ++
          [0xA1, 0xC2, 0xD6, 0x01, 0x5E, 0x4D, 0x3C, 0x2B])) 68 [] =
        Except.ok ((5, (0x01D6C2A1 <<< 32) ||| 0x2B3C4D5E), reads) :=
  (C1_import_data_decodes ⟨6, 1⟩
    ([0, 0, 0, 0, 0x05, 0x00, 0x00, 0x00] ++ List.replicate 52 0 ++
      [0xA1, 0xC2, 0xD6, 0x01, 0x5E, 0x4D, 0x3C, 0x2B]) 68 (by decide) (by decide)).2.2
    (by decide) rfl (by decide) (by decide)

/-- C2: for both layouts and every buffer, null or not, whose size is below `offset + 8`
(16 for Legacy, 68 for Modern), `import_data` returns counter 0 and time 0 and reads no byte. -/
theorem C2_import_data_too_short (osinfo : OSVERSIONINFO) (buffer : Option (List byte))
    (size : Nat) (h : size < Usage.offset osinfo + 8) :
    Usage.offset osinfo + 8 = (if Usage.windows7 osinfo then 68 else 16) ∧
    Usage.import_data osinfo buffer size [] = Except.ok ((0, 0), []) := by
  constructor
  · unfold Usage.offset
    split <;> rfl
  · cases buffer with
    | none => rfl
    | some arr =>
      by_cases hz : size = 0
      · simp only [Usage.import_data, hz, if_true]
        rfl
      · simp only [Usage.import_data, hz, h, if_true, if_false]
        rfl

/-- Witness of C2: a 67-byte buffer under the Modern layout, and a null buffer. -/
theorem C2_import_data_too_short_witness :
    Usage.import_data ⟨6, 1⟩ (some (List.replicate 67 7)) 67 [] = Except.ok ((0, 0), []) ∧
    Usage.import_data ⟨5, 1⟩ none 0 [] = Except.ok ((0, 0), []) :=
  ⟨(C2_import_data_too_short ⟨6, 1⟩ (some (List.replicate 67 7)) 67 (by decide)).2,
   (C2_import_data_too_short ⟨5, 1⟩ none 0 (by decide)).2⟩

theorem ROT13_eq (c : Nat) :
    Usage.ROT13 c =
      if 97 ≤ c ∧ c ≤ 109 then c + 13
      else if 110 ≤ c ∧ c ≤ 122 then c - 13
      else if 65 ≤ c ∧ c ≤ 77 then c + 13
      else if 78 ≤ c ∧ c ≤ 90 then c - 13
      else c := by
  have ha : 'a'.toNat = 97 := rfl
  have hm : 'm'.toNat = 109 := rfl
  have hn : 'n'.toNat = 110 := rfl
  have hz : 'z'.toNat = 122 := rfl
  have hA : 'A'.toNat = 65 := rfl
  have hM : 'M'.toNat = 77 := rfl
  have hN : 'N'.toNat = 78 := rfl
  have hZ : 'Z'.toNat = 90 := rfl
  unfold Usage.ROT13
  rw [ha, hm, hn, hz, hA, hM, hN, hZ]
  split_ifs <;> omega

theorem ROT13_ROT13 (c : Nat) : Usage.ROT13 (Usage.ROT13 c) = c := by
  rw [ROT13_eq (Usage.ROT13 c), ROT13_eq c]
  split_ifs <;> omega

theorem rot13_name_rot13_name (s : List Nat) : Usage.rot13_name (Usage.rot13_name s) = s := by
  induction s with
  | nil => rfl
  | cons c t ih =>
    simp only [Usage.rot13_name, List.map_cons, List.cons.injEq] at ih ⊢
    exact ⟨ROT13_ROT13 c, ih⟩

/-- C4: `ROT13` is an involution on every character, hence the name transform applied twice
returns the original string, and every character that is not an ASCII letter is unchanged. -/
theorem C4_rot13_involution :
    (∀ c : Nat, Usage.ROT13 (Usage.ROT13 c) = c) ∧
    (∀ s : List Nat, Usage.rot13_name (Usage.rot13_name s) = s) ∧
    (∀ c : Nat, ¬ (('a'.toNat ≤ c ∧ c ≤ 'z'.toNat) ∨ ('A'.toNat ≤ c ∧ c ≤ 'Z'.toNat)) →
      Usage.ROT13 c = c) := by
  refine ⟨ROT13_ROT13, rot13_name_rot13_name, ?_⟩
  intro c hc
  have hz : 'z'.toNat = 122 := rfl
  have ha : 'a'.toNat = 97 := rfl
  have hA : 'A'.toNat = 65 := rfl
  have hZ : 'Z'.toNat = 90 := rfl
  rw [ha, hz, hA, hZ] at hc
  rw [ROT13_eq c]
  split_ifs <;> omega

/-- Witness of C4 on the letter `h`, the name `Uryyb` and the digit `0`. -/
theorem C4_rot13_involution_witness :
    Usage.ROT13 (Usage.ROT13 'h'.toNat) = 'h'.toNat ∧
    Usage.rot13_name (Usage.rot13_name ("Uryyb".toList.map Char.toNat)) =
      "Uryyb".toList.map Char.toNat ∧
    Usage.ROT13 '0'.toNat = '0'.toNat :=
  ⟨C4_rot13_involution.1 'h'.toNat,
   C4_rot13_involution.2.1 ("Uryyb".toList.map Char.toNat),
   C4_rot13_involution.2.2 '0'.toNat (by decide)⟩

/-- C10: a character in a-m or A-M is mapped to `c + 13`, one in n-z or N-Z to `c - 13`, any
other character to itself; a letter stays a letter of the same case; and the name `Uryyb`
transformed character by character is `Hello`. -/
theorem C10_rot13_cases :
    (∀ c : Nat, ('a'.toNat ≤ c ∧ c ≤ 'm'.toNat) ∨ ('A'.toNat ≤ c ∧ c ≤ 'M'.toNat) →
      Usage.ROT13 c = c + 13) ∧
    (∀ c : Nat, ('n'.toNat ≤ c ∧ c ≤ 'z'.toNat) ∨ ('N'.toNat ≤ c ∧ c ≤ 'Z'.toNat) →
      Usage.ROT13 c = c - 13 ∧ Usage.ROT13 c + 13 = c) ∧
    (∀ c : Nat, ¬ (('a'.toNat ≤ c ∧ c ≤ 'z'.toNat) ∨ ('A'.toNat ≤ c ∧ c ≤ 'Z'.toNat)) →
      Usage.ROT13 c = c) ∧
    (∀ c : Nat, 'a'.toNat ≤ c ∧ c ≤ 'z'.toNat →
      'a'.toNat ≤ Usage.ROT13 c ∧ Usage.ROT13 c ≤ 'z'.toNat) ∧
    (∀ c : Nat, 'A'.toNat ≤ c ∧ c ≤ 'Z'.toNat →
      'A'.toNat ≤ Usage.ROT13 c ∧ Usage.ROT13 c ≤ 'Z'.toNat) ∧
    Usage.rot13_name ("Uryyb".toList.map Char.toNat) = "Hello".toList.map Char.toNat := by
  have ha : 'a'.toNat = 97 := rfl
  have hm : 'm'.toNat = 109 := rfl
  have hn : 'n'.toNat = 110 := rfl
  have hz : 'z'.toNat = 122 := rfl
  have hA : 'A'.toNat = 65 := rfl
  have hM : 'M'.toNat = 77 := rfl
  have hN : 'N'.toNat = 78 := rfl
  have hZ : 'Z'.toNat = 90 := rfl
  rw [ha, hm, hn, hz, hA, hM, hN, hZ]
  refine ⟨?_, ?_, ?_, ?_, ?_, by decide⟩ <;> intro c hc <;> rw [ROT13_eq c] <;>
    split_ifs <;> omega

/-- Witness of C10 on `h`, `u`, `0`, `x` and `Q`. -/
theorem C10_rot13_cases_witness :
    Usage.ROT13 'h'.toNat = 'h'.toNat + 13 ∧
    (Usage.ROT13 'u'.toNat = 'u'.toNat - 13 ∧ Usage.ROT13 'u'.toNat + 13 = 'u'.toNat) ∧
    Usage.ROT13 '0'.toNat = '0'.toNat ∧
    ('a'.toNat ≤ Usage.ROT13 'x'.toNat ∧ Usage.ROT13 'x'.toNat ≤ 'z'.toNat) ∧
    ('A'.toNat ≤ Usage.ROT13 'Q'.toNat ∧ Usage.ROT13 'Q'.toNat ≤ 'Z'.toNat) :=
  ⟨C10_rot13_cases.1 'h'.toNat (by decide),
   C10_rot13_cases.2.1 'u'.toNat (by decide),
   C10_rot13_cases.2.2.1 '0'.toNat (by decide),
   C10_rot13_cases.2.2.2.1 'x'.toNat (by decide),
   C10_rot13_cases.2.2.2.2.1 'Q'.toNat (by decide)⟩

theorem platform_eq (osinfo : OSVERSIONINFO) :
    Usage.platform osinfo =
      2 ^ 16 * (osinfo.dwMajorVersion % 2 ^ 16) + osinfo.dwMinorVersion % 2 ^ 16 := by
  have hM : osinfo.dwMajorVersion % 2 ^ 16 < 2 ^ 16 := Nat.mod_lt _ (by norm_num)
  have hm : osinfo.dwMinorVersion % 2 ^ 16 < 2 ^ 16 := Nat.mod_lt _ (by norm_num)
  have hm32 : osinfo.dwMinorVersion % 2 ^ 16 % 2 ^ 32 = osinfo.dwMinorVersion % 2 ^ 16 :=
    Nat.mod_eq_of_lt (by omega)
  have hM32 : osinfo.dwMajorVersion % 2 ^ 16 % 2 ^ 32 = osinfo.dwMajorVersion % 2 ^ 16 :=
    Nat.mod_eq_of_lt (by omega)
  have hs : (osinfo.dwMajorVersion % 2 ^ 16) <<< (2 * 8) % 2 ^ 32 =
      2 ^ 16 * (osinfo.dwMajorVersion % 2 ^ 16) := by
    rw [Nat.shiftLeft_eq]
    omega
  simp only [Usage.platform]
  rw [hM32, hm32, hs]
  exact (Nat.mul_add_lt_is_or hm _).symm

theorem windows7_iff (osinfo : OSVERSIONINFO) :
    Usage.windows7 osinfo = true ↔
      6 ≤ osinfo.dwMajorVersion % 2 ^ 16 ∧ 1 ≤ osinfo.dwMinorVersion % 2 ^ 16 := by
  have hM : osinfo.dwMajorVersion % 2 ^ 16 < 2 ^ 16 := Nat.mod_lt _ (by norm_num)
  have hm : osinfo.dwMinorVersion % 2 ^ 16 < 2 ^ 16 := Nat.mod_lt _ (by norm_num)
  have h1 : Usage.platform_major osinfo = osinfo.dwMajorVersion % 2 ^ 16 := by
    simp only [Usage.platform_major, platform_eq, Nat.shiftRight_eq_div_pow]
    omega
  have h2 : Usage.platform_minor osinfo = osinfo.dwMinorVersion % 2 ^ 16 := by
    simp only [Usage.platform_minor, platform_eq]
    omega
  simp [Usage.windows7, h1, h2]

/-- C5, evaluated: versions (6,1) and (7,1) select the Modern layout and (6,0) and (5,1) the
Legacy one, as claimed; version (10,0), whose major is above 6, selects the Legacy layout
(offset 8, Legacy key set) although the claim says Modern. -/
theorem C5_layout_selection_at_10_0 :
    (Usage.windows7 ⟨6, 1⟩ = true ∧ Usage.offset ⟨6, 1⟩ = 60) ∧
    (Usage.windows7 ⟨7, 1⟩ = true ∧ Usage.offset ⟨7, 1⟩ = 60) ∧
    (Usage.windows7 ⟨6, 0⟩ = false ∧ Usage.offset ⟨6, 0⟩ = 8) ∧
    (Usage.windows7 ⟨5, 1⟩ = false ∧ Usage.offset ⟨5, 1⟩ = 8) ∧
    (Usage.windows7 ⟨10, 0⟩ = false ∧ Usage.offset ⟨10, 0⟩ = 8 ∧
      Usage.keys ⟨10, 0⟩ = Usage.keys ⟨5, 1⟩ ∧ Usage.keys ⟨10, 0⟩ ≠ Usage.keys ⟨6, 1⟩) := by
  refine ⟨⟨by decide, by decide⟩, ⟨by decide, by decide⟩, ⟨by decide, by decide⟩,
    ⟨by decide, by decide⟩, by decide, by decide, rfl, by decide⟩

theorem export_data_faults (osinfo : OSVERSIONINFO) (counter time : Nat) (buffer : SlotPtr)
    (slot : BytePtr) (hc : counter ≠ 0) (ht : time ≠ 0) :
    Usage.export_data osinfo counter time buffer slot = Except.error Fault.null_pointer := by
  simp [Usage.export_data, hc, ht, store_slot, bind, Except.bind, pure, Except.pure]

theorem export_data_refuses (osinfo : OSVERSIONINFO) (counter time : Nat) (buffer : SlotPtr)
    (slot : BytePtr) (h : counter = 0 ∨ time = 0) :
    Usage.export_data osinfo counter time buffer slot =
      Except.ok { size := 0, slot := slot, fresh := none } := by
  simp [Usage.export_data, h, pure, Except.pure]

theorem enum_values_count (reg : Registry) (handle : Option Nat) (fuel : Nat) :
    ∀ (remaining index : Nat) (self : Usage) (out : Outcome),
      Usage.enum_values reg handle fuel remaining index self = some out →
      out.self.self_count = self.self_count := by
  intro remaining
  induction remaining with
  | zero =>
    intro index self out h
    simp only [Usage.enum_values, Option.some.injEq] at h
    rw [← h]
  | succ remaining ih =>
    intro index self out h
    simp only [Usage.enum_values] at h
    split at h
    · exact Option.noConfusion h
    · split_ifs at h
      · simp only [Option.some.injEq] at h
        rw [← h]
      · have := ih _ _ _ h
        exact this

theorem update_paths_count (reg : Registry) (fuel : Nat) :
    ∀ (paths : List String) (self : Usage) (out : Outcome),
      Usage.update_paths reg fuel paths self = some out → out.thrown = none →
      out.self.self_count =
        match paths.getLast? with
        | none => self.self_count
        | some key => (reg.RegQueryInfoKey (reg.RegOpenKeyExW key).2).2 := by
  intro paths
  induction paths with
  | nil =>
    intro self out h _
    simp only [Usage.update_paths, Option.some.injEq] at h
    rw [← h]
    rfl
  | cons key rest ih =>
    intro self out h hn
    simp only [Usage.update_paths] at h
    split_ifs at h with hs
    · simp only [Option.some.injEq] at h
      rw [← h] at hn
      exact Option.noConfusion hn
    · split at h
      · exact Option.noConfusion h
      · rename_i out1 h1
        have hc := enum_values_count _ _ _ _ _ _ _ h1
        split at h
        · rename_i code hth
          simp only [Option.some.injEq] at h
          rw [← h, hth] at hn
          exact Option.noConfusion hn
        · have := ih out1.self out h hn
          rw [this]
          cases rest with
          | nil => simpa using hc
          | cons k t =>
            rw [List.getLast?_cons_cons, List.getLast?_eq_getLast _ (List.cons_ne_nil k t)]

/-- C3, evaluated at counter 5 and time `0x01D6C2A12B3C4D5E` under both layouts: `export_data`
overwrites its own `buffer` parameter with `NULL` and then stores through it, so the call ends
in a null-pointer store and produces no buffer that `import_data` could decode. -/
theorem C3_export_data_produces_no_buffer :
    Usage.export_data ⟨6, 1⟩ 5 0x01D6C2A12B3C4D5E SlotPtr.caller (BytePtr.addr 0) =
      Except.error Fault.null_pointer ∧
    Usage.export_data ⟨5, 1⟩ 5 0x01D6C2A12B3C4D5E SlotPtr.caller (BytePtr.addr 0) =
      Except.error Fault.null_pointer :=
  ⟨export_data_faults _ _ _ _ _ (by decide) (by decide),
   export_data_faults _ _ _ _ _ (by decide) (by decide)⟩

/-- C8, evaluated at counter 0, time 5 (and counter 5, time 0) with the caller's pointer
variable holding the non-null address 4096: `export_data` reports size 0 and allocates nothing,
but the caller's pointer still holds 4096 afterwards, it is not set to null. -/
theorem C8_export_data_leaves_caller_pointer :
    Usage.export_data ⟨6, 1⟩ 0 5 SlotPtr.caller (BytePtr.addr 4096) =
      Except.ok { size := 0, slot := BytePtr.addr 4096, fresh := none } ∧
    Usage.export_data ⟨6, 1⟩ 5 0 SlotPtr.caller (BytePtr.addr 4096) =
      Except.ok { size := 0, slot := BytePtr.addr 4096, fresh := none } ∧
    BytePtr.addr 4096 ≠ BytePtr.addr 0 :=
  ⟨export_data_refuses _ _ _ _ _ (Or.inl rfl), export_data_refuses _ _ _ _ _ (Or.inr rfl),
   by decide⟩

/-- C6, evaluated on a registry whose two Modern keys hold one value each (`N`, then `O`):
`update` returns normally with `size() = 1`, not `1 + 1`, and its only entry is the second
key's value `B`; the entry `A` of the first key is gone. -/
theorem C6_update_keeps_only_last_location :
    Usage.update ⟨6, 1⟩ registry_two_keys 1 Usage.fresh =
      some { self := { self_count := 1, self_name := [some ['B'.toNat]],
                       self_buffer := [some [3]], self_buffersize := [some 1] },
             thrown := none } ∧
    (Usage.paths ⟨6, 1⟩).length = 2 ∧
    (registry_two_keys.RegQueryInfoKey (some 0)).2 + (registry_two_keys.RegQueryInfoKey (some 1)).2
      = 2 := by
  decide

/-- C7, evaluated on a registry in which the second Modern key does not exist: the open call
returns `ERROR_FILE_NOT_FOUND` (2), `update` goes on to query the unwritten handle and throws
the code of that query, `ERROR_INVALID_HANDLE` (6); the members still hold the entry of the
first key. -/
theorem C7_update_ignores_open_status :
    (registry_second_key_missing.RegOpenKeyExW ((Usage.paths ⟨6, 1⟩).getD 1 "")).1 =
      ERROR_FILE_NOT_FOUND ∧
    Usage.update ⟨6, 1⟩ registry_second_key_missing 1 Usage.fresh =
      some { self := { self_count := 1, self_name := [some ['A'.toNat]],
                       self_buffer := [some [1, 2]], self_buffersize := [some 2] },
             thrown := some ERROR_INVALID_HANDLE } ∧
    ERROR_INVALID_HANDLE ≠ ERROR_FILE_NOT_FOUND := by
  decide

theorem write_back_store_answers_by_threshold (reg : Registry) (handle : Option Nat)
    (index Td Tv Gd Gv : Nat) (h : write_back_store reg handle index Td Tv Gd Gv) :
    answers_by_threshold reg handle index Td Tv :=
  ⟨fun v d hlow => (h.1 v d hlow).1, h.2⟩

theorem reach_bound_zero (s T o k : Nat) (hs : 1 ≤ s) : reach_bound s 0 T o k = s + k := by
  unfold reach_bound
  omega

theorem write_back_registry_two_calls :
    Usage.enum_retry (write_back_registry 300 10) none 0 173 128 64 0 =
      some { state := ERROR_SUCCESS, valuelen := 65, datalen := 301, value := [], data := [],
             calls := 2 } := by
  decide

theorem member_at_ok {α : Type} (array : List (Option α)) (index : Nat) (a : α)
    (h : array[index]? = some (some a)) : member_at array index = Except.ok a := by
  simp [member_at, h]

theorem to_DWORD_to_time_t (t : Nat) : to_DWORD (to_time_t t) = t % 2 ^ 32 := by
  have key : to_time_t t % 2 ^ 32 = ((t % 2 ^ 32 : Nat) : Int) := by
    unfold to_time_t
    split <;> omega
  unfold to_DWORD
  rw [key]
  exact Int.toNat_natCast _

theorem to_DWORD_shift (t : Nat) (ht : t < 2 ^ 64) :
    to_DWORD (to_time_t t >>> (16 : Nat)) = (t >>> 16) % 2 ^ 32 := by
  have key : (to_time_t t / ((2 ^ 16 : Nat) : Int)) % 2 ^ 32 =
      ((t / 2 ^ 16 % 2 ^ 32 : Nat) : Int) := by
    unfold to_time_t
    split <;> omega
  unfold to_DWORD
  rw [Int.shiftRight_eq_div_pow, Nat.shiftRight_eq_div_pow, key]
  exact Int.toNat_natCast _

theorem or_halves (h l : Nat) (hl : l < 2 ^ 32) : (h <<< 32) ||| l = 2 ^ 32 * h + l := by
  rw [Nat.shiftLeft_eq, Nat.mul_comm]
  exact (Nat.mul_add_lt_is_or hl h).symm

theorem time_ok (osinfo : OSVERSIONINFO) (self : Usage) (index : Nat) (arr : List byte)
    (size : Nat) (hb : self.self_buffer[index]? = some (some arr))
    (hs : self.self_buffersize[index]? = some (some size))
    (hlen : size ≤ arr.length) (ho : Usage.offset osinfo + 8 ≤ size) :
    Usage.time osinfo self index =
      Except.ok
        ((le32_at arr (Usage.offset osinfo) <<< 32) ||| le32_at arr (Usage.offset osinfo + 4),
         { dwLowDateTime :=
             (((le32_at arr (Usage.offset osinfo) <<< 32) |||
               le32_at arr (Usage.offset osinfo + 4)) >>> 16) % 2 ^ 32
           dwHighDateTime :=
             ((le32_at arr (Usage.offset osinfo) <<< 32) |||
               le32_at arr (Usage.offset osinfo + 4)) % 2 ^ 32 }) := by
  have hh := le32_at_lt arr (Usage.offset osinfo)
  have hl := le32_at_lt arr (Usage.offset osinfo + 4)
  have ht : (le32_at arr (Usage.offset osinfo) <<< 32) ||| le32_at arr (Usage.offset osinfo + 4)
      < 2 ^ 64 := by
    rw [or_halves _ _ hl]
    omega
  simp only [Usage.time, member_at_ok _ _ _ hb, member_at_ok _ _ _ hs,
    import_data_ok osinfo arr size hlen ho, bind, Except.bind, pure, Except.pure,
    to_DWORD_shift _ ht, to_DWORD_to_time_t]

theorem counter_ok (osinfo : OSVERSIONINFO) (self : Usage) (index : Nat) (arr : List byte)
    (size : Nat) (hb : self.self_buffer[index]? = some (some arr))
    (hs : self.self_buffersize[index]? = some (some size))
    (hlen : size ≤ arr.length) (ho : Usage.offset osinfo + 8 ≤ size) :
    Usage.counter osinfo self index = Except.ok (to_int32 (le32_at arr 4)) := by
  simp only [Usage.counter, member_at_ok _ _ _ hb, member_at_ok _ _ _ hs,
    import_data_ok osinfo arr size hlen ho, bind, Except.bind, pure, Except.pure]

theorem counter_too_short (osinfo : OSVERSIONINFO) (self : Usage) (index : Nat) (arr : List byte)
    (size : Nat) (hb : self.self_buffer[index]? = some (some arr))
    (hs : self.self_buffersize[index]? = some (some size))
    (ho : size < Usage.offset osinfo + 8) :
    Usage.counter osinfo self index = Except.ok 0 := by
  have himp : Usage.import_data osinfo (some arr) size [] = Except.ok ((0, 0), []) := by
    by_cases hz : size = 0
    · simp only [Usage.import_data, hz, if_true]
      rfl
    · simp only [Usage.import_data, hz, ho, if_true, if_false]
      rfl
  simp only [Usage.counter, member_at_ok _ _ _ hb, member_at_ok _ _ _ hs, himp, bind,
    Except.bind, pure, Except.pure]
  rfl

theorem to_int32_small (c : Nat) (h : c < 2 ^ 31) : to_int32 c = (c : Int) := by
  unfold to_int32
  split <;> omega

theorem to_int32_large (c : Nat) (h1 : 2 ^ 31 ≤ c) (h2 : c < 2 ^ 32) :
    to_int32 c = (c : Int) - 2 ^ 32 := by
  unfold to_int32
  split <;> omega

/-- C11: for every stored record long enough for the layout, `time(index, filetime)` returns
the decoded tick count `t = (high << 32) | low` and writes `dwLowDateTime = (t >> 16)` truncated
to 32 bits and `dwHighDateTime = t` truncated to 32 bits, which is `low`; for the record with
high `0x01D6C2A1` and low `0x2B3C4D5E` the pair `(dwHighDateTime, dwLowDateTime)` differs from
`(high, low)` and `(dwHighDateTime << 32) | dwLowDateTime` differs from `t`, while the returned
value is `t`. -/
theorem C11_filetime_split_differs_from_decode :
    (∀ (osinfo : OSVERSIONINFO) (self : Usage) (index : Nat) (arr : List byte) (size : Nat),
      self.self_buffer[index]? = some (some arr) →
      self.self_buffersize[index]? = some (some size) →
      size ≤ arr.length → Usage.offset osinfo + 8 ≤ size →
      ∃ t : Nat,
        t = (le32_at arr (Usage.offset osinfo) <<< 32) ||| le32_at arr (Usage.offset osinfo + 4) ∧
        (∃ reads : Trace, Usage.import_data osinfo (some arr) size [] =
          Except.ok ((le32_at arr 4, t), reads)) ∧
        Usage.time osinfo self index =
          Except.ok (t, { dwLowDateTime := (t >>> 16) % 2 ^ 32, dwHighDateTime := t % 2 ^ 32 }) ∧
        t % 2 ^ 32 = le32_at arr (Usage.offset osinfo + 4)) ∧
    (∃ (t : Nat) (filetime : FILETIME),
      le32_at modern_record 60 = 0x01D6C2A1 ∧ le32_at modern_record 64 = 0x2B3C4D5E ∧
      Usage.time ⟨6, 1⟩ usage_modern_record 0 = Except.ok (t, filetime) ∧
      t = (0x01D6C2A1 <<< 32) ||| 0x2B3C4D5E ∧
      (filetime.dwHighDateTime, filetime.dwLowDateTime) ≠ (0x01D6C2A1, 0x2B3C4D5E) ∧
      (filetime.dwHighDateTime <<< 32) ||| filetime.dwLowDateTime ≠ t) := by
  constructor
  · intro osinfo self index arr size hb hs hlen ho
    refine ⟨_, rfl, ⟨_, import_data_ok osinfo arr size hlen ho⟩,
      time_ok osinfo self index arr size hb hs hlen ho, ?_⟩
    rw [or_halves _ _ (le32_at_lt _ _)]
    have := le32_at_lt arr (Usage.offset osinfo + 4)
    omega
  · exact ⟨0x01D6C2A12B3C4D5E, { dwLowDateTime := 0xC2A12B3C, dwHighDateTime := 0x2B3C4D5E },
      by decide, by decide, rfl, by decide, by decide, by decide⟩

/-- Witness of C11 on the 68-byte record under Windows 6.1. -/
theorem C11_filetime_split_differs_from_decode_witness :
    ∃ t : Nat,
      t = (le32_at modern_record (Usage.offset ⟨6, 1⟩) <<< 32) |||
        le32_at modern_record (Usage.offset ⟨6, 1⟩ + 4) ∧
      (∃ reads : Trace, Usage.import_data ⟨6, 1⟩ (some modern_record) 68 [] =
        Except.ok ((le32_at modern_record 4, t), reads)) ∧
      Usage.time ⟨6, 1⟩ usage_modern_record 0 =
        Except.ok (t, { dwLowDateTime := (t >>> 16) % 2 ^ 32, dwHighDateTime := t % 2 ^ 32 }) ∧
      t % 2 ^ 32 = le32_at modern_record (Usage.offset ⟨6, 1⟩ + 4) :=
  C11_filetime_split_differs_from_decode.1 ⟨6, 1⟩ usage_modern_record 0 modern_record 68
    rfl rfl (by decide) (by decide)

/-- C12, evaluated on a 16-byte Legacy record whose bytes `[4, 8)` hold `2 ^ 31`: index 0 is
below `size()`, `import_data` decodes the counter 2147483648 from `buffer(0)` and
`buffersize(0)`, and `counter(0)` returns -2147483648. -/
theorem C12_counter_is_signed :
    0 < Usage.size usage_large_counter ∧
    Usage.buffer usage_large_counter 0 = some large_counter_record ∧
    Usage.buffersize usage_large_counter 0 = some 16 ∧
    le32_at large_counter_record 4 = 2147483648 ∧
    Usage.import_data ⟨5, 1⟩ (some large_counter_record) 16 [] =
      Except.ok ((2147483648, 0), [4, 5, 6, 7, 8, 9, 10, 11, 12, 13, 14, 15]) ∧
    Usage.counter ⟨5, 1⟩ usage_large_counter 0 = Except.ok (-2147483648) ∧
    (-2147483648 : Int) ≠ 2147483648 :=
  ⟨by decide, by decide, by decide, by decide, rfl, rfl, by decide⟩

end winmenu
